import Mathlib

/-!
Verification of the lyrics service core against its source.

The embedding follows `src/lyrics_api` (the current service):
`services/lyrics_scraper.py` (URL normalisation, fetch classification,
container extraction, text cleaning, `scrape_lyrics`),
`services/storage/storage_service.py` (`store_lyrics`),
`services/data_service.py` (`_get_lyrics`, `get_lyrics`) and
`routers/lyrics.py` (the HTTP endpoint).  BeautifulSoup parsing and the
HTTP/SQLite transports are external collaborators; they are modelled as
explicit inputs (a parsed node tree, a fetch outcome, a database write
outcome).  Strings are Lean `String`s; Python exceptions become `Except`
or `Option` results.
-/

namespace LyricsApi

/-- A parsed markup node as produced by BeautifulSoup: either a plain text
node (`NavigableString`) or an element (`Tag`) with a name, attributes and
children in document order. -/
inductive HNode where
  | text (s : String)
  | tag (name : String) (attrs : List (String × String)) (children : List HNode)

/-- `Tag.contents`: the children of an element; a text node has none. -/
def HNode.contents : HNode → List HNode
  | .text _ => []
  | .tag _ _ children => children

/-- Serialisation of an attribute list, ` name="value"` for each pair. -/
def serializeAttrs (attrs : List (String × String)) : String :=
  String.join (attrs.map (fun p => " " ++ p.1 ++ "=\"" ++ p.2 ++ "\""))

mutual

/-- `str(element)`: serialise a node back to markup.  A text node prints
its text; `br` is a void element printed self-closed (as BeautifulSoup
prints it); any other element prints an open tag, its serialised children
and a close tag. -/
def serializeNode : HNode → String
  | .text s => s
  | .tag name attrs children =>
    if name = "br" then "<br" ++ serializeAttrs attrs ++ "/>"
    else "<" ++ name ++ serializeAttrs attrs ++ ">" ++ serializeList children
         ++ "</" ++ name ++ ">"

/-- Serialise a list of nodes in order and concatenate. -/
def serializeList : List HNode → String
  | [] => ""
  | c :: cs => serializeNode c ++ serializeList cs

end

mutual

/-- `element.find("span")` applied to one candidate node: the node itself
if it is a `span` element, otherwise the first `span` among its
descendants in document order. -/
def findSpanNode : HNode → Option HNode
  | .text _ => none
  | .tag name attrs children =>
    if name = "span" then some (.tag name attrs children)
    else findSpanList children

/-- `element.find("span")` over a list of nodes: first match in document
order (each node before its following siblings, a node before its own
descendants). -/
def findSpanList : List HNode → Option HNode
  | [] => none
  | c :: cs =>
    match findSpanNode c with
    | some r => some r
    | none => findSpanList cs

end

mutual

/-- `soup.select("div[data-lyrics-container='true']")` on one node:
every `div` element carrying the attribute `data-lyrics-container="true"`,
in document order, the node itself included. -/
def extractNode : HNode → List HNode
  | .text _ => []
  | .tag name attrs children =>
    (if name = "div" ∧ ("data-lyrics-container", "true") ∈ attrs
     then [HNode.tag name attrs children] else []) ++ extractList children

/-- CSS selection over a list of sibling nodes, in document order. -/
def extractList : List HNode → List HNode
  | [] => []
  | c :: cs => extractNode c ++ extractList cs

end

/-- `LyricsScraper._extract_lyrics_containers`: parse the page (parsing is
the external BeautifulSoup collaborator, so the input is already the
parsed node forest) and select every `div[data-lyrics-container='true']`. -/
def extract_lyrics_containers (doc : List HNode) : List HNode :=
  extractList doc

/-- The inner loop of `LyricsScraper._clean_lyrics_text` over one
container's `contents`: plain text is appended verbatim; a `br`, `i` or
`b` element is appended serialised unchanged; for an `a` element the
first nested `span` is found and its serialised children are appended —
when no `span` exists, `element.find("span")` is `None` and iterating it
raises a `TypeError`, modelled as `none`; any other element contributes
nothing. -/
def cleanSection : List HNode → Option String
  | [] => some ""
  | .text s :: rest => (cleanSection rest).map (fun r => s ++ r)
  | .tag name attrs children :: rest =>
    if name = "br" ∨ name = "i" ∨ name = "b" then
      (cleanSection rest).map
        (fun r => serializeNode (.tag name attrs children) ++ r)
    else if name = "a" then
      match findSpanList children with
      | some sp => (cleanSection rest).map
          (fun r => serializeList sp.contents ++ r)
      | none => none
    else cleanSection rest

/-- `"<br/>".join(...)`: join the per-container sections with a single
`<br/>` between consecutive sections. -/
def joinBr : List String → String
  | [] => ""
  | [s] => s
  | s :: rest => s ++ "<br/>" ++ joinBr rest

/-- `LyricsScraper._clean_lyrics_text`: clean each container in order and
join the results with `<br/>`; `none` when the walk of some container
raises (`TypeError` on a span-less hyperlink). -/
def clean_lyrics_text (lyrics_containers : List HNode) : Option String :=
  (lyrics_containers.mapM (fun c => cleanSection c.contents)).map joinBr

/-! ## Key normalisation (`LyricsScraper._format_string_for_url`, `_get_url`) -/

/-- One character of
`unicodedata.normalize('NFKD', s).encode('ascii', 'ignore').decode('ascii')`:
an ASCII character stands; an accented Latin letter decomposes under NFKD
into its ASCII base letter plus combining marks, and the marks are
discarded by the ASCII encode; a compatibility character decomposes to
its ASCII equivalent (the fullwidth ASCII block by a uniform codepoint
shift, and the common ligatures, the trade-mark sign and the vulgar
fractions, whose non-ASCII fraction slash is discarded).  Any other
non-ASCII character contributes nothing (for the service's inputs —
names and titles — the remaining non-ASCII characters, such as curly
quotes, have no ASCII NFKD constituent). -/
def nfkdAsciiChar (c : Char) : List Char :=
  if c.toNat < 128 then [c]
  else if c ∈ ['á', 'à', 'â', 'ä', 'ã', 'å'] then ['a']
  else if c ∈ ['Á', 'À', 'Â', 'Ä', 'Ã', 'Å'] then ['A']
  else if c ∈ ['é', 'è', 'ê', 'ë'] then ['e']
  else if c ∈ ['É', 'È', 'Ê', 'Ë'] then ['E']
  else if c ∈ ['í', 'ì', 'î', 'ï'] then ['i']
  else if c ∈ ['Í', 'Ì', 'Î', 'Ï'] then ['I']
  else if c ∈ ['ó', 'ò', 'ô', 'ö', 'õ'] then ['o']
  else if c ∈ ['Ó', 'Ò', 'Ô', 'Ö', 'Õ'] then ['O']
  else if c ∈ ['ú', 'ù', 'û', 'ü'] then ['u']
  else if c ∈ ['Ú', 'Ù', 'Û', 'Ü'] then ['U']
  else if c ∈ ['ý', 'ÿ'] then ['y']
  else if c = 'Ý' then ['Y']
  else if c = 'ñ' then ['n']
  else if c = 'Ñ' then ['N']
  else if c = 'ç' then ['c']
  else if c = 'Ç' then ['C']
  else if 0xFF01 ≤ c.toNat ∧ c.toNat ≤ 0xFF5E then [Char.ofNat (c.toNat - 0xFEE0)]
  else if c = 'ﬁ' then ['f', 'i']
  else if c = 'ﬂ' then ['f', 'l']
  else if c = '™' then ['T', 'M']
  else if c = '½' then ['1', '2']
  else if c = '¼' then ['1', '4']
  else if c = '¾' then ['3', '4']
  else []

/-- Line 64: fold to ASCII, character by character. -/
def asciiFold (l : List Char) : List Char :=
  l.flatMap nfkdAsciiChar

/-- Python `str.lower()` of group 1 contains `"feat"` or `"with"`:
the parenthesised content is dropped entirely when this holds. -/
def containsFeatOrWith (content : List Char) : Bool :=
  let lowered := content.map Char.toLower
  decide ("feat".data <:+: lowered) || decide ("with".data <:+: lowered)

/-- The scan behind `re.sub(r"\(([^)]*)\)", handle_parentheses, s)`,
with an explicit in-group state.  Outside a group (`none`) a `(` opens a
group and any other character is kept.  Inside a group (`some acc`, the
content consumed so far in reverse) a `)` closes the match —
`handle_parentheses` keeps the content unless its lowercase form contains
`feat` or `with` — and scanning resumes after it; input ending inside a
group means the regex had no match from that `(` (no closing parenthesis
follows), so the `(` and its content stand untouched. -/
def parenSubGo : Option (List Char) → List Char → List Char
  | none, [] => []
  | some acc, [] => '(' :: acc.reverse
  | none, c :: rest =>
    if c = '(' then parenSubGo (some []) rest
    else c :: parenSubGo none rest
  | some acc, c :: rest =>
    if c = ')' then
      (if containsFeatOrWith acc.reverse then [] else acc.reverse)
        ++ parenSubGo none rest
    else parenSubGo (some (c :: acc)) rest

/-- Line 72, `re.sub(r"\(([^)]*)\)", handle_parentheses, s)`: each group
runs from a `(` to the first following `)` (the content may itself
contain `(`), and is replaced by its content, or by nothing when that
content contains `feat` or `with` case-insensitively. -/
def parenSub (l : List Char) : List Char :=
  parenSubGo none l

/-- Python `\s` over the ASCII range the pipeline produces. -/
def isPyWs (c : Char) : Bool :=
  c == ' ' || c == '\t' || c == '\n' || c == '\r' || c == '\x0b' || c == '\x0c'

/-- `feat` matches at the head of `l` under `re.IGNORECASE`. -/
def featAt (l : List Char) : Bool :=
  match l with
  | f :: e :: a :: t :: _ =>
    f.toLower == 'f' && e.toLower == 'e' && a.toLower == 'a' && t.toLower == 't'
  | _ => false

/-- `\s*feat` matches at the head of `l`. -/
def matchWsFeat (l : List Char) : Bool :=
  match l with
  | [] => false
  | c :: rest => featAt (c :: rest) || (isPyWs c && matchWsFeat rest)

/-- `\s*-\s*feat` matches at the head of `l`. -/
def matchDashFeat (l : List Char) : Bool :=
  match l with
  | [] => false
  | c :: rest => (c == '-' && matchWsFeat rest) || (isPyWs c && matchDashFeat rest)

mutual

/-- Line 75, `re.sub(r"\s*-\s*feat.*", "", s, flags=re.IGNORECASE)`:
left-to-right scan replacing every non-overlapping match.  A match starts
wherever `\s*-\s*feat` matches (`\s` includes the newline, `.` does not):
a leading whitespace character of the match is consumed and the suffix
still matches, the `-` switches to the `\s*feat` tail, and the trailing
`.*` runs only to the end of the line, where scanning resumes. -/
def removeDashFeat : List Char → List Char
  | [] => []
  | c :: rest =>
    if c == '-' && matchWsFeat rest then removeDashFeatWs rest
    else if isPyWs c && matchDashFeat rest then removeDashFeat rest
    else c :: removeDashFeat rest

/-- Inside a `\s*-\s*feat.*` match, after its `-`: consume the `\s*` run
(every character here is whitespace, since `matchWsFeat` holds whenever
this is reached) up to the `feat` literal. -/
def removeDashFeatWs : List Char → List Char
  | [] => []
  | c :: rest =>
    if featAt (c :: rest) then removeDashFeatSkip 3 rest
    else removeDashFeatWs rest

/-- Inside a `\s*-\s*feat.*` match, after its `f`: consume `k` more
characters of the `feat` literal, then `.*` — everything up to the next
newline or the end of the input.  `re.sub` resumes scanning at the
newline, which may already open the next match's leading `\s*`. -/
def removeDashFeatSkip : Nat → List Char → List Char
  | _, [] => []
  | k + 1, _ :: rest => removeDashFeatSkip k rest
  | 0, c :: rest =>
    if c = '\n' then
      if matchDashFeat (c :: rest) then removeDashFeat rest
      else c :: removeDashFeat rest
    else removeDashFeatSkip 0 rest

end

mutual

/-- Line 76, `re.sub(r"\s*feat.*", "", s, flags=re.IGNORECASE)`:
left-to-right scan replacing every non-overlapping match.  A match starts
wherever `\s*feat` matches (`\s` includes the newline, `.` does not): a
leading whitespace character of the match is consumed and the suffix
still matches, and from the `feat` literal the trailing `.*` runs only to
the end of the line, where scanning resumes. -/
def removeFeat : List Char → List Char
  | [] => []
  | c :: rest =>
    if featAt (c :: rest) then removeFeatSkip 3 rest
    else if isPyWs c && matchWsFeat rest then removeFeat rest
    else c :: removeFeat rest

/-- Inside a `\s*feat.*` match, after its `f`: consume `k` more
characters of the `feat` literal, then `.*` — everything up to the next
newline or the end of the input.  `re.sub` resumes scanning at the
newline, which may already open the next match's leading `\s*`. -/
def removeFeatSkip : Nat → List Char → List Char
  | _, [] => []
  | k + 1, _ :: rest => removeFeatSkip k rest
  | 0, c :: rest =>
    if c = '\n' then
      if matchWsFeat (c :: rest) then removeFeat rest
      else c :: removeFeat rest
    else removeFeatSkip 0 rest

end

/-- Line 79, `s.replace("$", "-").replace("&", "and")`. -/
def replaceDollarAmp (l : List Char) : List Char :=
  l.flatMap (fun c =>
    if c = '$' then ['-'] else if c = '&' then ['a', 'n', 'd'] else [c])

/-- `string.punctuation` with the hyphen removed (line 80 builds the
deletion table from `string.punctuation.replace("-", "")`). -/
def punctuationNoHyphen : List Char :=
  "!\"#$%&\x27()*+,./:;<=>?@[\\]^_\x60\x7b|\x7d~".data

/-- Line 80, `s.translate(str.maketrans("", "", ...))`: delete every
punctuation character except the hyphen. -/
def stripPunct (l : List Char) : List Char :=
  l.filter (fun c => ¬ c ∈ punctuationNoHyphen)

/-- Line 83, `s.lower().replace(" ", "-")`. -/
def lowerAndHyphen (l : List Char) : List Char :=
  (l.map Char.toLower).map (fun c => if c = ' ' then '-' else c)

/-- Line 83, `.strip("-")`: drop leading and trailing hyphens. -/
def stripHyphens (l : List Char) : List Char :=
  ((l.dropWhile (fun c => c = '-')).reverse.dropWhile (fun c => c = '-')).reverse

/-- Line 85, `re.sub(r'-+', '-', s)`: collapse each run of hyphens to a
single hyphen. -/
def collapseHyphens : List Char → List Char
  | [] => []
  | [c] => [c]
  | c1 :: c2 :: rest =>
    if c1 = '-' ∧ c2 = '-' then collapseHyphens (c2 :: rest)
    else c1 :: collapseHyphens (c2 :: rest)

/-- `LyricsScraper._format_string_for_url`, the full pipeline in source
order (lines 64–87). -/
def format_string_for_url (s : String) : String :=
  let l1 := asciiFold s.data
  let l2 := parenSub l1
  let l3 := removeDashFeat l2
  let l4 := removeFeat l3
  let l5 := replaceDollarAmp l4
  let l6 := stripPunct l5
  let l7 := stripHyphens (lowerAndHyphen l6)
  String.mk (collapseHyphens l7)

/-- `artist[0].upper() + artist[1:]` — `none` models the `IndexError`
raised by `artist[0]` when the formatted artist is empty. -/
def capitalizeFirst (s : String) : Option String :=
  match s.data with
  | [] => none
  | c :: cs => some (String.mk (c.toUpper :: cs))

/-- `LyricsScraper._get_url` (lines 89–111): format both inputs,
capitalise the first character of the artist (an `IndexError` on an empty
formatted artist propagates as `none`), and assemble the path. -/
def get_url (artist title : String) : Option String :=
  (capitalizeFirst (format_string_for_url artist)).map
    (fun a => "/" ++ a ++ "-" ++ format_string_for_url title ++ "-lyrics")

/-! ## Fetching (`LyricsScraper._get_html`) and scraping (`scrape_lyrics`) -/

/-- Outcome of the single `client.get` transport call (the external HTTP
collaborator): a 2xx response whose body parses to the given node forest,
an `httpx.HTTPStatusError` from `raise_for_status` on a non-2xx status, an
`httpx.RequestError` for a transport-level failure, or any other
exception.  Each failure carries the exception's rendered detail. -/
inductive FetchResult where
  | success (doc : List HNode)
  | httpStatusError (detail : String)
  | requestError (detail : String)
  | otherException (detail : String)

/-- Modelled from the spec: the scraper's error taxonomy.  The snapshot's
`lyrics_scraper.py` defines only `LyricsScraperException`, but
`data_service.py` and `tests/services/test_data_service.py` import
`LyricsScraperNotFoundException` from that module, so the subclass exists
in the repository outside the snapshot; per spec §4.4 (steps 3–4) it is
the classification of the two content-not-found failures, distinct from
every other failure.  `notFound` models that subclass and `exception`
models the base `LyricsScraperException`. -/
inductive ScraperError where
  | notFound (message : String)
  | exception (message : String)
deriving DecidableEq

/-- `LyricsScraper._get_html` (lines 165–180): one request, whose outcome
is classified; a non-2xx status, a transport failure and any other
exception are wrapped as `LyricsScraperException`s with three distinct
message heads. -/
def get_html : FetchResult → Except ScraperError (List HNode)
  | .success doc => .ok doc
  | .httpStatusError d => .error (.exception ("Non-2XX status code - " ++ d))
  | .requestError d => .error (.exception ("Request failed - " ++ d))
  | .otherException d => .error (.exception ("Failed to retrieve HTML - " ++ d))

/-- `_get_html` run against a transport able to answer any number of
requests (`attempts n` is what the `n`-th request would return).  The
body of `_get_html` awaits `_make_limited_request` exactly once and has
no loop or retry, so the run consumes attempt 0 only; the second
component is the number of requests issued. -/
def get_html_once (attempts : Nat → FetchResult) :
    Except ScraperError (List HNode) × Nat :=
  (get_html (attempts 0), 1)

/-- `LyricsScraper.scrape_lyrics` (lines 244–291) over a parsed fetch
outcome: build the URL (`_get_url`; its `IndexError` on an empty
formatted artist is caught by the final `except Exception` handler),
fetch, extract the containers, fail when none are found, clean, fail when
the cleaned text is empty, and catch any non-`LyricsScraperException`
(such as the cleaner's `TypeError`) as the generic scraping failure.  The
`notFound` classification of the two content-not-found raises follows the
spec (see `ScraperError`). -/
def scrape_lyrics (fetch : FetchResult) (artist_name track_title : String) :
    Except ScraperError String :=
  match get_url artist_name track_title with
  | none => .error (.exception "An error occurred while scraping the lyrics")
  | some _url =>
    match get_html fetch with
    | .error e => .error e
    | .ok html =>
      let lyrics_containers := extract_lyrics_containers html
      if lyrics_containers.isEmpty then
        .error (.notFound ("Lyrics containers not found for "
          ++ artist_name ++ " - " ++ track_title))
      else
        match clean_lyrics_text lyrics_containers with
        | none =>
          .error (.exception "An error occurred while scraping the lyrics")
        | some lyrics =>
          if lyrics = "" then
            .error (.notFound ("Lyrics not found for "
              ++ artist_name ++ " - " ++ track_title))
          else .ok lyrics

/-! ## Storage (`storage/storage_service.py`) -/

/-- Outcome of the SQLite `INSERT` behind `store_lyrics` (the external
store): success, an `aiosqlite.IntegrityError` (primary-key violation on
an existing `track_id`), an `aiosqlite.OperationalError`, or another
`aiosqlite.DatabaseError`. -/
inductive DbWriteOutcome where
  | ok
  | integrityError
  | operationalError (detail : String)
  | databaseError (detail : String)

/-- `StorageServiceException` with its message. -/
inductive StorageError where
  | storageServiceException (message : String)
deriving DecidableEq

/-- `StorageService.store_lyrics` (lines 71–105): the insert's failure is
re-raised as a `StorageServiceException`; a duplicate key gets the
dedicated `Track ID '...' already exists.` message. -/
def store_lyrics (track_id : String) (db : DbWriteOutcome) :
    Except StorageError Unit :=
  match db with
  | .ok => .ok ()
  | .integrityError =>
    .error (.storageServiceException
      ("Track ID \x27" ++ track_id ++ "\x27 already exists."))
  | .operationalError d =>
    .error (.storageServiceException ("Database operation failed - " ++ d))
  | .databaseError d =>
    .error (.storageServiceException ("Unexpected database error - " ++ d))

/-! ## Data service (`data_service.py`) and router (`routers/lyrics.py`) -/

/-- `LyricsRequest` (`models.py`). -/
structure LyricsRequest where
  track_id : String
  artist_name : String
  track_title : String

/-- `LyricsResponse` (`models.py`). -/
structure LyricsResponse where
  track_id : String
  artist_name : String
  track_title : String
  lyrics : String
deriving DecidableEq

/-- The external world one resolution runs against: what the cache read
returns for the key, what the single transport request would yield, and
what the database write would do. -/
structure ResolveEnv where
  cached : Option String
  fetch : FetchResult
  dbWrite : DbWriteOutcome

/-- An error escaping `DataService._get_lyrics`. -/
inductive ServiceError where
  | scraper (e : ScraperError)
  | storage (e : StorageError)
deriving DecidableEq

/-- Observable trace of one `_get_lyrics` run: its result, how many times
`scrape_lyrics` (hence the transport path) was invoked, and the
`(key, value)` of every storage put issued. -/
structure LyricsTrace where
  result : Except ServiceError String
  scrapeCalls : Nat
  storeCalls : List (String × String)

/-- `DataService._get_lyrics` (lines 61–98): return the cached value when
the cache read is non-null; otherwise scrape, then store under the key —
the storage call is issued whether or not it succeeds, and its failure
propagates out of `_get_lyrics`. -/
def data_get_lyrics (env : ResolveEnv) (track_id artist_name track_title : String) :
    LyricsTrace :=
  match env.cached with
  | some lyrics => ⟨.ok lyrics, 0, []⟩
  | none =>
    match scrape_lyrics env.fetch artist_name track_title with
    | .error e => ⟨.error (.scraper e), 1, []⟩
    | .ok lyrics =>
      match store_lyrics track_id env.dbWrite with
      | .error se => ⟨.error (.storage se), 1, [(track_id, lyrics)]⟩
      | .ok _ => ⟨.ok lyrics, 1, [(track_id, lyrics)]⟩

/-- `DataServiceNotFoundException` / `DataServiceException`. -/
inductive DataError where
  | notFoundException (message : String)
  | exception (message : String)
deriving DecidableEq

/-- The `track_id: ..., artist_name: ..., track_title: ...` context the
data service embeds into every wrapped error message. -/
def requestContext (req : LyricsRequest) : String :=
  "track_id: " ++ req.track_id ++ ", artist_name: " ++ req.artist_name
    ++ ", track_title: " ++ req.track_title

/-- `DataService.get_lyrics` (lines 100–157): build the response on
success; a `LyricsScraperNotFoundException` becomes a
`DataServiceNotFoundException`, and a `LyricsScraperException` or
`StorageServiceException` becomes a `DataServiceException`, each wrapped
with the request context. -/
def get_lyrics (env : ResolveEnv) (req : LyricsRequest) :
    Except DataError LyricsResponse :=
  match (data_get_lyrics env req.track_id req.artist_name req.track_title).result with
  | .ok lyrics =>
    .ok ⟨req.track_id, req.artist_name, req.track_title, lyrics⟩
  | .error (.scraper (.notFound m)) =>
    .error (.notFoundException
      ("Lyrics not found for " ++ requestContext req ++ " - " ++ m))
  | .error (.scraper (.exception m)) =>
    .error (.exception
      ("Failed to retrieve lyrics for " ++ requestContext req ++ " - " ++ m))
  | .error (.storage (.storageServiceException m)) =>
    .error (.exception
      ("Failed to retrieve lyrics for " ++ requestContext req ++ " - " ++ m))

/-- What the HTTP layer hands back for one request. -/
inductive HttpResult where
  | ok (body : LyricsResponse)
  | httpException (status_code : Nat) (detail : String)
deriving DecidableEq

/-- The `POST /lyrics` handler (`routers/lyrics.py` lines 10–45): a
`DataServiceNotFoundException` maps to 404 `Lyrics not found.`, any other
`DataServiceException` to 500 `Something went wrong.`. -/
def get_lyrics_route (env : ResolveEnv) (req : LyricsRequest) : HttpResult :=
  match get_lyrics env req with
  | .ok resp => .ok resp
  | .error (.notFoundException _) => .httpException 404 "Lyrics not found."
  | .error (.exception _) => .httpException 500 "Something went wrong."

/-! ## Batch resolution -/

/-- Modelled from the spec: `resolveAll` (spec §4.4, batch contract).  No
batch endpoint exists under `src/`; per the spec it invokes `resolve`
concurrently for every item and collects each outcome preserving input
order, one outcome per request, never letting one item's failure cancel a
sibling.  `resolve1` is the per-item resolution. -/
def resolveAll (resolve1 : LyricsRequest → Except DataError LyricsResponse)
    (reqs : List LyricsRequest) : List (Except DataError LyricsResponse) :=
  reqs.map resolve1

/-- Modelled from the spec: a concurrent execution of the batch as an
explicit completion schedule.  `order` lists the item indices in the
order their resolutions happen to complete; each completion records its
input index with its outcome (an index outside the batch records
nothing). -/
def runSchedule (resolve1 : LyricsRequest → Except DataError LyricsResponse)
    (reqs : List LyricsRequest) (order : List Nat) :
    List (Nat × Except DataError LyricsResponse) :=
  order.filterMap (fun i => (reqs[i]?).map (fun r => (i, resolve1 r)))

/-- Modelled from the spec: read the batch outcome back in input order
from the completion records, slot `i` taking the outcome recorded for
input index `i`. -/
def collectOutcomes (n : Nat)
    (steps : List (Nat × Except DataError LyricsResponse)) :
    List (Option (Except DataError LyricsResponse)) :=
  (List.range n).map (fun i => steps.lookup i)

/-- An outcome marked failed. -/
def isFailedOutcome : Except DataError LyricsResponse → Bool
  | .error _ => true
  | .ok _ => false

/-! ## Concrete fixtures used to evaluate the embedding -/

/-- A lyrics container whose only child is a hyperlink with no nested
`span`. -/
def spanlessLinkContainer : HNode :=
  .tag "div" [("data-lyrics-container", "true")] [.tag "a" [] [.text "x"]]

/-- A page holding one lyrics container with the text `Some lyrics`. -/
def demoDoc : List HNode :=
  [.tag "div" [("data-lyrics-container", "true")] [.text "Some lyrics"]]

/-- A per-item resolution that fails exactly on the request with id 1. -/
def failingResolve : LyricsRequest → Except DataError LyricsResponse :=
  fun r =>
    if r.track_id = "1" then .error (.exception "boom")
    else .ok ⟨r.track_id, r.artist_name, r.track_title, "L"⟩

/-- Decidable equality for `Except` results, used to evaluate the
embedding on concrete runs. -/
instance exceptDecEq {ε α : Type} [DecidableEq ε] [DecidableEq α] :
    DecidableEq (Except ε α) := fun x y =>
  match x, y with
  | .ok a, .ok b =>
    if h : a = b then .isTrue (by rw [h])
    else .isFalse (fun he => h (Except.ok.inj he))
  | .ok _, .error _ => .isFalse (fun he => Except.noConfusion he)
  | .error _, .ok _ => .isFalse (fun he => Except.noConfusion he)
  | .error a, .error b =>
    if h : a = b then .isTrue (by rw [h])
    else .isFalse (fun he => h (Except.error.inj he))

/-! ## Shared helper lemmas -/

/-- Two strings starting with different characters stay different after
appending arbitrary suffixes. -/
theorem append_ne_of_head_ne {p1 p2 : String} (s1 s2 : String)
    {c1 c2 : Char} {t1 t2 : List Char}
    (h1 : p1.data = c1 :: t1) (h2 : p2.data = c2 :: t2) (hne : c1 ≠ c2) :
    p1 ++ s1 ≠ p2 ++ s2 := by
  intro he
  have hd : (p1 ++ s1).data = (p2 ++ s2).data := congrArg String.data he
  rw [String.data_append, String.data_append, h1, h2,
      List.cons_append, List.cons_append] at hd
  exact hne (List.cons.inj hd).1

/-! ## C6 — concrete normalisation examples -/

/-- C6: the normalisation pipeline maps
`("Eminem feat. Rihanna", "Love the Way You Lie")` to
`/Eminem-love-the-way-you-lie-lyrics` and `("Beyoncé", "Halo")` to
`/Beyonce-halo-lyrics`. -/
theorem c6_normalization_examples :
    get_url "Eminem feat. Rihanna" "Love the Way You Lie"
      = some "/Eminem-love-the-way-you-lie-lyrics"
    ∧ get_url "Beyoncé" "Halo" = some "/Beyonce-halo-lyrics" := by
  exact ⟨by decide, by decide⟩

/-! ## C9 — the cleaner is not total on span-less hyperlinks -/

/-- C9: on a block holding a hyperlink with no nested `span`,
`_clean_lyrics_text` raises (`element.find("span")` is `None` and
iterating it is a `TypeError`) instead of returning a string, and through
`scrape_lyrics` and the endpoint this surfaces as the generic scraping
failure (HTTP 500), not as extracted content and not as the not-found
outcome. -/
theorem c9_spanless_link_raises :
    clean_lyrics_text [spanlessLinkContainer] = none
    ∧ scrape_lyrics (.success [spanlessLinkContainer]) "Artist" "Track"
        = .error (.exception "An error occurred while scraping the lyrics")
    ∧ get_lyrics_route ⟨none, .success [spanlessLinkContainer], .ok⟩
        ⟨"1", "Artist", "Track"⟩
        = .httpException 500 "Something went wrong." := by
  refine ⟨rfl, by decide, by decide⟩

/-! ## C1 — a duplicate-key cache write is fatal to the read -/

/-- C1 counterexample: a cache miss whose fetch and extraction succeed
(`Some lyrics` is computed) but whose cache write hits an existing key
does NOT return the computed lyrics to the caller — `_get_lyrics` raises
and the endpoint answers 500. -/
theorem c1_duplicate_key_counterexample :
    scrape_lyrics (.success demoDoc) "Artist" "Track" = .ok "Some lyrics"
    ∧ (data_get_lyrics ⟨none, .success demoDoc, .integrityError⟩
        "1" "Artist" "Track").result ≠ .ok "Some lyrics"
    ∧ get_lyrics_route ⟨none, .success demoDoc, .integrityError⟩
        ⟨"1", "Artist", "Track"⟩
        = .httpException 500 "Something went wrong." := by
  refine ⟨by decide, by decide, by decide⟩

/-- C1 (amended): when the cache write fails on an existing key, the
condition is reported distinctly (the dedicated
`Track ID '...' already exists.` message, unequal to both other database
failure messages), but it is fatal to the read that produced it: the
storage exception propagates, `get_lyrics` raises the generic
`DataServiceException` and the endpoint answers 500 — the computed lyrics
are not returned. -/
theorem c1_duplicate_key_is_fatal (env : ResolveEnv) (req : LyricsRequest)
    (lyrics : String)
    (hc : env.cached = none)
    (hs : scrape_lyrics env.fetch req.artist_name req.track_title = .ok lyrics)
    (hd : env.dbWrite = .integrityError) :
    store_lyrics req.track_id env.dbWrite
      = .error (.storageServiceException
          ("Track ID \x27" ++ req.track_id ++ "\x27 already exists."))
    ∧ (∀ d, ("Track ID \x27" ++ (req.track_id ++ "\x27 already exists."))
          ≠ "Database operation failed - " ++ d
        ∧ ("Track ID \x27" ++ (req.track_id ++ "\x27 already exists."))
          ≠ "Unexpected database error - " ++ d)
    ∧ get_lyrics env req
        = .error (.exception ("Failed to retrieve lyrics for "
            ++ requestContext req ++ " - "
            ++ ("Track ID \x27" ++ req.track_id ++ "\x27 already exists.")))
    ∧ get_lyrics_route env req = .httpException 500 "Something went wrong."
    ∧ ∀ resp, get_lyrics env req ≠ .ok resp := by
  have hstore : store_lyrics req.track_id env.dbWrite
      = .error (.storageServiceException
          ("Track ID \x27" ++ req.track_id ++ "\x27 already exists.")) := by
    rw [hd]; rfl
  have hget : get_lyrics env req
      = .error (.exception ("Failed to retrieve lyrics for "
          ++ requestContext req ++ " - "
          ++ ("Track ID \x27" ++ req.track_id ++ "\x27 already exists."))) := by
    unfold get_lyrics data_get_lyrics
    rw [hc, hs, hstore]
  refine ⟨hstore, ?_, hget, ?_, ?_⟩
  · intro d
    exact ⟨append_ne_of_head_ne _ _ rfl rfl (by decide),
           append_ne_of_head_ne _ _ rfl rfl (by decide)⟩
  · unfold get_lyrics_route
    rw [hget]
  · intro resp h
    rw [hget] at h
    exact Except.noConfusion h

/-- C1 witness: the amended theorem applied at a concrete duplicate-key
run. -/
theorem c1_duplicate_key_is_fatal_witness :
    get_lyrics_route ⟨none, .success demoDoc, .integrityError⟩
      ⟨"1", "Artist", "Track"⟩
      = .httpException 500 "Something went wrong." :=
  (c1_duplicate_key_is_fatal ⟨none, .success demoDoc, .integrityError⟩
    ⟨"1", "Artist", "Track"⟩ "Some lyrics" rfl (by decide) rfl).2.2.2.1

/-! ## C3 — empty normalised artist raises, empty title does not -/

/-- C3 counterexample: with an artist that normalises to the empty string
the path construction raises (`artist[0]` is an `IndexError`, modelled as
`none`) instead of returning a path. -/
theorem c3_empty_artist_counterexample : get_url "" "x" = none := by decide

/-- Two strings with the same character list are equal. -/
theorem string_eq_of_data {s t : String} (h : s.data = t.data) : s = t := by
  cases s
  cases t
  cases h
  rfl

/-- C3 (amended): the boundary behaviour is asymmetric.  A title that
normalises to empty yields a path with an empty title segment and no
exception, but an artist that normalises to empty makes `_get_url` raise
an `IndexError` (no path is returned). -/
theorem c3_empty_segment_behavior (artist title : String) :
    (format_string_for_url title = "" → format_string_for_url artist ≠ "" →
      ∃ a, capitalizeFirst (format_string_for_url artist) = some a
        ∧ get_url artist title = some ("/" ++ a ++ "--lyrics"))
    ∧ (format_string_for_url artist = "" → get_url artist title = none) := by
  constructor
  · intro ht ha
    rcases hcap : capitalizeFirst (format_string_for_url artist) with _ | a
    · exfalso
      apply ha
      apply string_eq_of_data
      unfold capitalizeFirst at hcap
      rcases hdata : (format_string_for_url artist).data with _ | ⟨c, cs⟩
      · rfl
      · rw [hdata] at hcap
        cases hcap
    · refine ⟨a, rfl, ?_⟩
      unfold get_url
      rw [ht, hcap, Option.map_some']
      have h2 : "/" ++ a ++ "-" ++ "" ++ "-lyrics" = "/" ++ a ++ "--lyrics" := by
        apply string_eq_of_data
        simp only [String.data_append]
        simp
      rw [h2]
  · intro ha
    unfold get_url
    rw [ha]
    rfl

/-- C3 witness: the amended theorem applied at concrete inputs — the
artist `"x"` with the empty title builds `/X--lyrics`, and the
all-punctuation artist `"!!!"` (which normalises to empty) raises. -/
theorem c3_empty_segment_behavior_witness :
    get_url "x" "" = some "/X--lyrics" ∧ get_url "!!!" "t" = none := by
  constructor
  · obtain ⟨a, ha, hu⟩ :=
      (c3_empty_segment_behavior "x" "").1 (by decide) (by decide)
    have : a = "X" := by
      have h2 : capitalizeFirst (format_string_for_url "x") = some "X" := by
        decide
      rw [h2] at ha
      exact (Option.some.inj ha).symm
    rw [this] at hu
    exact hu
  · exact (c3_empty_segment_behavior "!!!" "t").2 (by decide)

/-! ## C2 — content-not-found maps to 404, never 500 -/

/-- C2: when a request reaches the fetch (`spec-modelled` NotFound
classification, see `ScraperError`), the fetch succeeds, and either no
container is selected or the cleaned text is empty, `scrape_lyrics` fails
with the `notFound` classification — a constructor distinct from every
other scraper failure — and the endpoint answers 404 `Lyrics not found.`,
never the generic 500 outcome. -/
theorem c2_not_found_maps_to_404 (env : ResolveEnv) (req : LyricsRequest)
    (doc : List HNode) (u : String)
    (hu : get_url req.artist_name req.track_title = some u)
    (hc : env.cached = none) (hf : env.fetch = .success doc)
    (h : extract_lyrics_containers doc = []
         ∨ clean_lyrics_text (extract_lyrics_containers doc) = some "") :
    (∃ m, scrape_lyrics env.fetch req.artist_name req.track_title
        = .error (.notFound m))
    ∧ (∀ m m2, ScraperError.notFound m ≠ ScraperError.exception m2)
    ∧ get_lyrics_route env req = .httpException 404 "Lyrics not found."
    ∧ ∀ d, get_lyrics_route env req ≠ .httpException 500 d := by
  have hs : ∃ m, scrape_lyrics env.fetch req.artist_name req.track_title
      = .error (.notFound m) := by
    rw [hf]
    by_cases he : extract_lyrics_containers doc = []
    · refine ⟨"Lyrics containers not found for " ++ req.artist_name ++ " - "
        ++ req.track_title, ?_⟩
      simp [scrape_lyrics, hu, get_html, he]
    · rcases h with h | h
      · exact absurd h he
      · have hne : (extract_lyrics_containers doc).isEmpty = false := by
          rcases hx : extract_lyrics_containers doc with _ | ⟨c, cs⟩
          · exact absurd hx he
          · rfl
        refine ⟨"Lyrics not found for " ++ req.artist_name ++ " - "
          ++ req.track_title, ?_⟩
        simp [scrape_lyrics, hu, get_html, hne, h]
  obtain ⟨m, hs⟩ := hs
  have hget : get_lyrics env req
      = .error (.notFoundException ("Lyrics not found for "
          ++ requestContext req ++ " - " ++ m)) := by
    unfold get_lyrics data_get_lyrics
    rw [hc, hs]
  refine ⟨⟨m, hs⟩, fun m1 m2 hx => ScraperError.noConfusion hx, ?_, ?_⟩
  · unfold get_lyrics_route
    rw [hget]
  · intro d hx
    unfold get_lyrics_route at hx
    rw [hget] at hx
    have : (404 : Nat) = 500 := (HttpResult.httpException.inj hx).1
    exact absurd this (by decide)

/-- C2 witness: a successful fetch of a page with no lyrics container, on
a cache miss, answers 404. -/
theorem c2_not_found_maps_to_404_witness :
    get_lyrics_route ⟨none, .success [], .ok⟩ ⟨"1", "A", "T"⟩
      = .httpException 404 "Lyrics not found." :=
  (c2_not_found_maps_to_404 ⟨none, .success [], .ok⟩ ⟨"1", "A", "T"⟩ []
    "/A-t-lyrics" (by decide) rfl rfl (Or.inl rfl)).2.2.1

/-! ## C4 — cache-hit is fetch-free; cache-miss stores exactly once -/

/-- A successful scrape presupposes a successful fetch whose extracted,
cleaned content is the returned lyrics. -/
theorem scrape_ok_parts {f : FetchResult} {a t lyrics : String}
    (h : scrape_lyrics f a t = .ok lyrics) :
    ∃ doc, f = .success doc
      ∧ clean_lyrics_text (extract_lyrics_containers doc) = some lyrics := by
  unfold scrape_lyrics at h
  rcases hu : get_url a t with _ | u
  · rw [hu] at h
    cases h
  · rw [hu] at h
    cases f with
    | success doc =>
      refine ⟨doc, rfl, ?_⟩
      simp only [get_html] at h
      by_cases he : (extract_lyrics_containers doc).isEmpty
      · rw [if_pos he] at h
        cases h
      · rw [if_neg he] at h
        rcases hcl : clean_lyrics_text (extract_lyrics_containers doc)
            with _ | lyr
        · simp only [hcl] at h
          exact Except.noConfusion h
        · simp only [hcl] at h
          by_cases hz : lyr = ""
          · rw [if_pos hz] at h
            exact Except.noConfusion h
          · rw [if_neg hz] at h
            rw [Except.ok.inj h]
    | httpStatusError d => simp only [get_html] at h; cases h
    | requestError d => simp only [get_html] at h; cases h
    | otherException d => simp only [get_html] at h; cases h

/-- C4: a cache hit resolves to the cached value with zero scrape
(transport) calls and zero puts; a cache miss whose scrape succeeds
issues exactly one put, keyed by the request id, whose value is the
cleaned extracted content of the fetched page. -/
theorem c4_cache_discipline (env : ResolveEnv) (req : LyricsRequest) :
    (∀ v, env.cached = some v →
      (data_get_lyrics env req.track_id req.artist_name req.track_title).scrapeCalls = 0
      ∧ (data_get_lyrics env req.track_id req.artist_name req.track_title).result = .ok v
      ∧ (data_get_lyrics env req.track_id req.artist_name req.track_title).storeCalls = [])
    ∧ (∀ lyrics, env.cached = none →
        scrape_lyrics env.fetch req.artist_name req.track_title = .ok lyrics →
        (data_get_lyrics env req.track_id req.artist_name req.track_title).storeCalls
          = [(req.track_id, lyrics)]
        ∧ ∃ doc, env.fetch = .success doc
            ∧ clean_lyrics_text (extract_lyrics_containers doc) = some lyrics) := by
  constructor
  · intro v hv
    unfold data_get_lyrics
    rw [hv]
    exact ⟨rfl, rfl, rfl⟩
  · intro lyrics hc hs
    refine ⟨?_, scrape_ok_parts hs⟩
    unfold data_get_lyrics
    rw [hc, hs]
    rcases store_lyrics req.track_id env.dbWrite with e | u <;> rfl

/-- C4 witness: the theorem applied to a concrete cache hit and to a
concrete cache miss. -/
theorem c4_cache_discipline_witness :
    (data_get_lyrics ⟨some "cached", .success [], .ok⟩ "1" "A" "T").scrapeCalls = 0
    ∧ (data_get_lyrics ⟨none, .success demoDoc, .ok⟩ "1" "Artist" "Track").storeCalls
        = [("1", "Some lyrics")] :=
  ⟨((c4_cache_discipline ⟨some "cached", .success [], .ok⟩ ⟨"1", "A", "T"⟩).1
      "cached" rfl).1,
   ((c4_cache_discipline ⟨none, .success demoDoc, .ok⟩ ⟨"1", "Artist", "Track"⟩).2
      "Some lyrics" rfl (by decide)).1⟩

/-! ## C5 — the cleaner's walk, element by element -/

/-- C5: `_clean_lyrics_text` walks each block's children in document
order — text verbatim, `br`/`i`/`b` serialised unchanged, a hyperlink
contributing only the serialised inner content of its first nested
`span`, anything else contributing nothing — and joins blocks with a
single `<br/>`: the empty sequence gives the empty string and two
plain-text blocks join with exactly one `<br/>`. -/
theorem c5_clean_text_walk :
    clean_lyrics_text [] = some ""
    ∧ (∀ s1 s2 a1 a2, clean_lyrics_text
        [.tag "div" a1 [.text s1], .tag "div" a2 [.text s2]]
        = some (s1 ++ "<br/>" ++ s2))
    ∧ (∀ s rest, cleanSection (.text s :: rest)
        = (cleanSection rest).map (fun r => s ++ r))
    ∧ (∀ name attrs children rest,
        name = "br" ∨ name = "i" ∨ name = "b" →
        cleanSection (.tag name attrs children :: rest)
        = (cleanSection rest).map
            (fun r => serializeNode (.tag name attrs children) ++ r))
    ∧ (∀ attrs children sp rest, findSpanList children = some sp →
        cleanSection (.tag "a" attrs children :: rest)
        = (cleanSection rest).map (fun r => serializeList sp.contents ++ r))
    ∧ (∀ name attrs children rest,
        ¬(name = "br" ∨ name = "i" ∨ name = "b") → name ≠ "a" →
        cleanSection (.tag name attrs children :: rest) = cleanSection rest) := by
  refine ⟨rfl, ?_, fun s rest => rfl, ?_, ?_, ?_⟩
  · intro s1 s2 a1 a2
    have hev : clean_lyrics_text
        [.tag "div" a1 [.text s1], .tag "div" a2 [.text s2]]
        = some ((s1 ++ "") ++ "<br/>" ++ (s2 ++ "")) := rfl
    rw [hev, String.append_empty, String.append_empty]
  · intro name attrs children rest h
    rcases h with rfl | rfl | rfl <;> rfl
  · intro attrs children sp rest h
    simp only [cleanSection, h]
    rfl
  · intro name attrs children rest h1 h2
    simp only [cleanSection, if_neg h1, if_neg h2]

/-- C5 witness: the per-element laws applied at concrete nodes. -/
theorem c5_clean_text_walk_witness :
    cleanSection [.tag "i" [] [.text "x"], .text "y"]
      = (cleanSection [.text "y"]).map
          (fun r => serializeNode (.tag "i" [] [.text "x"]) ++ r)
    ∧ cleanSection [.tag "a" [] [.tag "span" [] [.text "z"]]]
      = (cleanSection []).map
          (fun r => serializeList (HNode.tag "span" [] [.text "z"]).contents ++ r)
    ∧ cleanSection [.tag "div" [] [.text "dropped"]] = cleanSection [] :=
  ⟨c5_clean_text_walk.2.2.2.1 "i" [] [.text "x"] [.text "y"]
      (Or.inr (Or.inl rfl)),
   c5_clean_text_walk.2.2.2.2.1 [] [.tag "span" [] [.text "z"]]
      (.tag "span" [] [.text "z"]) [] rfl,
   c5_clean_text_walk.2.2.2.2.2 "div" [] [.text "dropped"] []
      (by decide) (by decide)⟩

/-! ## C7 — one attempt, three distinct failure classifications -/

/-- C7: `_get_html` issues exactly one transport request, its outcome
depends only on that single attempt (no retry: later attempts are never
consulted), and the three failure conditions map to three wrapped
messages no two of which can ever coincide. -/
theorem c7_fetch_classification :
    (∀ attempts, (get_html_once attempts).2 = 1)
    ∧ (∀ a1 a2, a1 0 = a2 0 → get_html_once a1 = get_html_once a2)
    ∧ (∀ d, get_html (.httpStatusError d)
        = .error (.exception ("Non-2XX status code - " ++ d)))
    ∧ (∀ d, get_html (.requestError d)
        = .error (.exception ("Request failed - " ++ d)))
    ∧ (∀ d, get_html (.otherException d)
        = .error (.exception ("Failed to retrieve HTML - " ++ d)))
    ∧ (∀ d1 d2, ("Non-2XX status code - " ++ d1 ≠ "Request failed - " ++ d2)
        ∧ ("Non-2XX status code - " ++ d1 ≠ "Failed to retrieve HTML - " ++ d2)
        ∧ ("Request failed - " ++ d1 ≠ "Failed to retrieve HTML - " ++ d2)) := by
  refine ⟨fun _ => rfl, ?_, fun d => rfl, fun d => rfl, fun d => rfl, ?_⟩
  · intro a1 a2 h
    unfold get_html_once
    rw [h]
  · intro d1 d2
    exact ⟨append_ne_of_head_ne _ _ rfl rfl (by decide),
           append_ne_of_head_ne _ _ rfl rfl (by decide),
           append_ne_of_head_ne _ _ rfl rfl (by decide)⟩

/-- C7 witness: a transport failing on its first attempt yields the same
classified outcome as one that would succeed on a second attempt — the
second attempt is never made. -/
theorem c7_fetch_classification_witness :
    get_html_once (fun _ => FetchResult.requestError "boom")
      = get_html_once
          (fun n => if n = 0 then FetchResult.requestError "boom"
                    else FetchResult.success []) :=
  c7_fetch_classification.2.1 _ _ rfl

/-! ## C8 — batch outcomes: order-correspondence and independence -/

/-- Whatever the completion order, the record for input index `i` holds
that item's own outcome. -/
theorem lookup_runSchedule
    (resolve1 : LyricsRequest → Except DataError LyricsResponse)
    (reqs : List LyricsRequest) (order : List Nat) (i : Nat)
    (hmem : i ∈ order) (hi : i < reqs.length) :
    (runSchedule resolve1 reqs order).lookup i = some (resolve1 reqs[i]) := by
  induction order with
  | nil => cases hmem
  | cons j rest ih =>
    unfold runSchedule
    rw [List.filterMap_cons]
    by_cases hj : j = i
    · subst hj
      rw [List.getElem?_eq_getElem hi]
      simp [List.lookup]
    · have hrest : i ∈ rest := by
        rcases List.mem_cons.mp hmem with h | h
        · exact absurd h.symm hj
        · exact h
      have hne : (i == j) = false :=
        beq_eq_false_iff_ne.mpr (fun he => hj he.symm)
      rcases hjr : reqs[j]? with _ | r
      · simp only [hjr, Option.map_none']
        exact ih hrest
      · simp only [hjr, Option.map_some']
        simp only [List.lookup, hne]
        exact ih hrest

/-- C8: the batch returns one outcome per request in input order (same
length, item `i`'s outcome is `resolve1` of request `i`); running the
items in ANY completion order and reading the records back in input order
reproduces exactly that outcome list; and with `M` failing items the
outcome list has exactly `M` failures and `N − M` successes. -/
theorem c8_batch_order_independence
    (resolve1 : LyricsRequest → Except DataError LyricsResponse)
    (reqs : List LyricsRequest) (order : List Nat)
    (hperm : order.Perm (List.range reqs.length)) :
    (resolveAll resolve1 reqs).length = reqs.length
    ∧ (∀ i : Nat, (resolveAll resolve1 reqs)[i]? = (reqs[i]?).map resolve1)
    ∧ collectOutcomes reqs.length (runSchedule resolve1 reqs order)
        = (resolveAll resolve1 reqs).map some
    ∧ (resolveAll resolve1 reqs).countP isFailedOutcome
        = reqs.countP (fun r => isFailedOutcome (resolve1 r))
    ∧ (resolveAll resolve1 reqs).countP (fun o => !isFailedOutcome o)
        = reqs.length - reqs.countP (fun r => isFailedOutcome (resolve1 r)) := by
  refine ⟨List.length_map _ _, fun i => List.getElem?_map _ _ _, ?_, ?_, ?_⟩
  · apply List.ext_getElem
    · simp [collectOutcomes, resolveAll]
    · intro n h1 h2
      have hn : n < reqs.length := by
        simpa [collectOutcomes] using h1
      simp only [collectOutcomes, resolveAll, List.getElem_map,
        List.getElem_range]
      exact lookup_runSchedule resolve1 reqs order n
        (hperm.mem_iff.mpr (List.mem_range.mpr hn)) hn
  · rw [resolveAll, List.countP_map]
    rfl
  · rw [resolveAll, List.countP_map]
    have hsum := List.length_eq_countP_add_countP
      (fun r => isFailedOutcome (resolve1 r)) reqs
    have hfun : (fun a => decide
          ¬((fun r => isFailedOutcome (resolve1 r)) a = true))
        = ((fun o => !isFailedOutcome o) ∘ resolve1) := by
      funext a
      simp [Function.comp]
    rw [hfun] at hsum
    omega

/-- C8 witness: a two-item batch whose first item fails, completed in
reverse order, still reads back in input order with exactly one failure. -/
theorem c8_batch_order_independence_witness :
    collectOutcomes 2
        (runSchedule failingResolve [⟨"1", "a", "t"⟩, ⟨"2", "b", "u"⟩] [1, 0])
      = (resolveAll failingResolve [⟨"1", "a", "t"⟩, ⟨"2", "b", "u"⟩]).map some
    ∧ (resolveAll failingResolve
        [⟨"1", "a", "t"⟩, ⟨"2", "b", "u"⟩]).countP isFailedOutcome = 1 := by
  refine ⟨(c8_batch_order_independence failingResolve
    [⟨"1", "a", "t"⟩, ⟨"2", "b", "u"⟩] [1, 0] (by decide)).2.2.1, by decide⟩

/-! ## C10 — `feat` anywhere (even mid-word) truncates to end of string -/

end LyricsApi
